import Mathlib

/-!
Verification of the shuati question-ingestion and practice-tracking core.

The TypeScript sources are shallowly embedded:
* `src/lib/ai.ts` (generation pipeline, zod schema, OpenAI config cache);
* `src/lib/db.ts` (persisted `Question` / `QuestionAttempt` records and the
  thin wrappers over the Tauri storage commands);
* `src/components/PracticeMode.tsx` (answer checking and attempt recording).

JavaScript numbers are modelled as rationals (`ℚ`), JavaScript exceptions as
`Option`/`Except`, the asynchronous remote model call as an explicit
`Except RemoteError (List GeneratedQuestion)` outcome parameter, and
`JSON.parse` (an external library function) as an arbitrary
`String → Option JsonValue` oracle, `none` standing for a thrown parse error.
-/

/-- The closed set of question types (`question_type` in both
`QuestionSchema` of `src/lib/ai.ts` and `Question` of `src/lib/db.ts`). -/
inductive QuestionType where
  | multiple_choice
  | fill_in_the_blank
  | essay
deriving DecidableEq, Repr

/-- One entry of `options` in `QuestionSchema`: zod accepts either a bare
string or an object `\x7b label, content \x7d`. -/
inductive QOption where
  | plain (s : String)
  | labeled (label content : String)
deriving DecidableEq, Repr

/-- `GeneratedQuestion = z.infer<typeof QuestionSchema>` from `src/lib/ai.ts`.
`difficulty` is `z.number()` (a JavaScript number, embedded as `ℚ`), not an
integer type. Optional fields are `Option`. -/
structure GeneratedQuestion where
  question_type : QuestionType
  stem : String
  options : Option (List QOption) := none
  reference_answer : String
  detailed_analysis : List String
  media_refs : Option (List String) := none
  knowledge_tags : Option (List String) := none
  difficulty : Option ℚ := none
deriving DecidableEq, Repr

/-- `OpenAIConfig` from `src/lib/ai.ts`. -/
structure OpenAIConfig where
  apiKey : String
  model : Option String := none
  baseURL : Option String := none
deriving DecidableEq, Repr

/-- The failure modes of the remote stage (`callOpenAIGenerator`): a fetch
rejection, a non-2xx response (`!response.ok`), `JSON.parse` throwing on the
message content, or `QuestionBatchSchema.parse` rejecting the payload. The
`catch` in `generateQuestionsFromText` treats them uniformly. -/
inductive RemoteError where
  | network (msg : String)
  | httpStatus (statusText : String)
  | malformedJson (msg : String)
  | schemaMismatch (msg : String)
deriving DecidableEq, Repr

/-- Substring occurrence on character lists, embedding JavaScript
`String.prototype.includes`. -/
def includesAux (pat : List Char) : List Char → Bool
  | [] => pat.isEmpty
  | c :: t => pat.isPrefixOf (c :: t) || includesAux pat t

/-- `s.includes(pat)` for JavaScript strings. -/
def jsIncludes (s pat : String) : Bool :=
  includesAux pat.data s.data

/-- `s.toLowerCase()` for JavaScript strings (character-wise lowercasing). -/
def jsToLowerCase (s : String) : String :=
  ⟨s.data.map Char.toLower⟩

/-- `s.trim()` for JavaScript strings: whitespace stripped from both ends. -/
def jsTrim (s : String) : String :=
  ⟨((s.data.dropWhile Char.isWhitespace).reverse.dropWhile Char.isWhitespace).reverse⟩

/-- The two templates returned by `generateMockQuestions` for texts matching
the algorithm/sort keywords (`src/lib/ai.ts`). -/
def sortingMockQuestions : List GeneratedQuestion :=
  [ { question_type := .multiple_choice
      stem := "What is the **time complexity** of QuickSort in the worst case?"
      options := some
        [ .labeled "A" "O(n \\log n)"
        , .labeled "B" "O(n^2)"
        , .labeled "C" "O(n)"
        , .labeled "D" "O(\\log n)" ]
      reference_answer := "B"
      detailed_analysis :=
        [ "QuickSort has a worst-case time complexity of $O(n^2)$."
        , "This happens when the pivot selection is poor (e.g., always picking the smallest or largest element in a sorted array)."
        , "However, its average case is $O(n \\log n)$." ]
      knowledge_tags := some ["algorithms", "sorting", "time-complexity"]
      difficulty := some 3 }
  , { question_type := .fill_in_the_blank
      stem := "The space complexity of MergeSort is $O($______$)$."
      reference_answer := "n"
      detailed_analysis :=
        [ "MergeSort requires auxiliary space proportional to the input size."
        , "This is because it needs to merge two sorted subarrays into a temporary array." ]
      knowledge_tags := some ["algorithms", "sorting", "space-complexity"]
      difficulty := some 2 } ]

/-- The two templates returned by `generateMockQuestions` for texts matching
the physics/energy keywords. -/
def physicsMockQuestions : List GeneratedQuestion :=
  [ { question_type := .fill_in_the_blank
      stem := "The formula for mass-energy equivalence is $E = mc^2$. Here $c$ stands for ______."
      reference_answer := "\\text{speed of light}"
      detailed_analysis :=
        [ "In physics, mass-energy equivalence is the relationship between mass and energy in a system's rest frame."
        , "$c$ represents the speed of light in vacuum, approximately $3 \\times 10^8$ m/s." ]
      knowledge_tags := some ["physics", "relativity", "mass-energy"]
      difficulty := some 2 }
  , { question_type := .essay
      stem := "Explain the significance of Einstein's equation $E = mc^2$ in modern physics."
      reference_answer := "The equation establishes that mass and energy are interchangeable. It explains nuclear reactions, forms the basis of nuclear energy, and is fundamental to understanding stellar energy production."
      detailed_analysis :=
        [ "Step 1: Explain the mathematical meaning - mass can be converted to energy and vice versa."
        , "Step 2: Discuss nuclear applications - fission and fusion reactions."
        , "Step 3: Mention astronomical implications - stellar nucleosynthesis."
        , "Step 4: Note the small conversion factor $c^2$ means small mass yields huge energy." ]
      knowledge_tags := some ["physics", "relativity", "nuclear-physics"]
      difficulty := some 4 } ]

/-- The single default template returned by `generateMockQuestions` for texts
matching no keyword. -/
def defaultMockQuestions : List GeneratedQuestion :=
  [ { question_type := .multiple_choice
      stem := "Which of the following best describes the content provided?"
      options := some
        [ .labeled "A" "Technical documentation"
        , .labeled "B" "Educational material"
        , .labeled "C" "Research paper"
        , .labeled "D" "Need more context to determine" ]
      reference_answer := "D"
      detailed_analysis :=
        [ "The content type cannot be determined without specific subject matter indicators."
        , "Please provide content with clear educational or technical markers." ]
      knowledge_tags := some ["general"]
      difficulty := some 1 } ]

/-- `generateMockQuestions` from `src/lib/ai.ts`: the deterministic offline
generator, a keyword-keyed selection over a fixed template catalog. -/
def generateMockQuestions (text : String) : List GeneratedQuestion :=
  if jsIncludes (jsToLowerCase text) "algorithm" || jsIncludes (jsToLowerCase text) "sort" then
    sortingMockQuestions
  else if jsIncludes (jsToLowerCase text) "physics" || jsIncludes (jsToLowerCase text) "energy" then
    physicsMockQuestions
  else
    defaultMockQuestions

/-- The per-question keep predicate inside `verifyQuestions`
(`src/lib/ai.ts`): the three early-return checks, in source order. In the
source, `!q.stem` is the empty-string falsiness test and `!q.options` the
undefined test (an empty array is truthy, and is caught by the length test). -/
def keepQuestion (q : GeneratedQuestion) : Bool :=
  if q.stem = "" ∨ q.stem.length < 10 then false
  else if q.reference_answer = "" then false
  else if q.question_type = QuestionType.multiple_choice ∧
      (q.options = none ∨ (q.options.getD []).length < 2) then false
  else true

/-- `verifyQuestions` from `src/lib/ai.ts` (its `_config` argument is
unused in the source). -/
def verifyQuestions (questions : List GeneratedQuestion) : List GeneratedQuestion :=
  questions.filter keepQuestion

/-- `formatQuestions` from `src/lib/ai.ts`: trims the stem, answer and each
analysis step. -/
def formatQuestions (questions : List GeneratedQuestion) : List GeneratedQuestion :=
  questions.map fun q =>
    { q with
      stem := q.stem.trim
      reference_answer := q.reference_answer.trim
      detailed_analysis := q.detailed_analysis.map String.trim }

/-- The truthiness test `config?.apiKey` guarding the remote path in
`generateQuestionsFromText`: a configuration counts only when present with a
non-empty `apiKey`. -/
def hasApiKey : Option OpenAIConfig → Bool
  | none => false
  | some c => decide (c.apiKey ≠ "")

/-- `generateQuestionsFromText` from `src/lib/ai.ts`. The remote call is an
explicit outcome parameter `remote`; the `try/catch` around the three stages
becomes the `match` on it (`verifyQuestions` and `formatQuestions` are pure
and cannot throw). When no API key is configured the remote outcome is never
consulted, embedding the skipped network call. -/
def generateQuestionsFromText (cfg : Option OpenAIConfig)
    (remote : Except RemoteError (List GeneratedQuestion))
    (text : String) : List GeneratedQuestion :=
  if hasApiKey cfg = false then
    generateMockQuestions text
  else
    match remote with
    | .error _ => generateMockQuestions text
    | .ok generated => formatQuestions (verifyQuestions generated)

/-- The runtime check zod performs on `difficulty` in `QuestionSchema`
(`z.number().min(1).max(5).optional()`, `src/lib/ai.ts`): an absent value
passes, a present value must lie in `[1,5]` — `z.number()` does not require
integrality. -/
def difficultyAccepted : Option ℚ → Bool
  | none => true
  | some x => decide (1 ≤ x ∧ x ≤ 5)

/-- The `difficulty` constraint declared by `questionJsonSchema`
(`src/lib/ai.ts`), the JSON Schema handed to the remote model for structured
outputs: `type: integer, minimum: 1, maximum: 5`, not in the `required`
list. -/
def jsonSchemaDifficultyAccepted : Option ℚ → Bool
  | none => true
  | some x => decide (x.den = 1 ∧ 1 ≤ x ∧ x ≤ 5)

/-- Whether `QuestionSchema.parse` accepts a candidate. The shape and enum
checks of zod are captured by the `GeneratedQuestion` type itself; the one
value-level runtime constraint in the schema is the `difficulty` range. -/
def questionSchemaAccepts (q : GeneratedQuestion) : Bool :=
  difficultyAccepted q.difficulty

/-- The persisted `Question` record from `src/lib/db.ts`: collection fields
are serialized JSON strings (or SQL null, i.e. `none`), `difficulty` a
nullable number. -/
structure Question where
  id : Option Nat := none
  question_type : QuestionType
  stem : String
  options : Option String := none
  reference_answer : String
  detailed_analysis : String
  media_refs : Option String := none
  knowledge_tags : Option String := none
  difficulty : Option ℚ := none
  created_at : Option String := none
deriving DecidableEq, Repr

/-- `QuestionAttempt` from `src/lib/db.ts`. -/
structure QuestionAttempt where
  id : Option Nat := none
  question_id : Nat
  user_answer : String
  is_correct : Bool
  confidence_score : Option ℚ := none
  time_spent_seconds : Nat
  created_at : Option String := none
deriving DecidableEq, Repr

/-- `checkAnswer` from `src/components/PracticeMode.tsx`: computes
`is_correct` and `user_answer` per question type and assembles the recorded
`QuestionAttempt`. `selectedOption` is the selected multiple-choice label
(`null` when nothing selected), `textAnswer` the free-text input, and
`timeSpent` the elapsed seconds the component reads from the clock. The
attempt literal in the source sets no `confidence_score`, so the field keeps
its default `none`. -/
def checkAnswer (q : Question) (selectedOption : Option String)
    (textAnswer : String) (timeSpent : Nat) : QuestionAttempt :=
  let result : Bool × String :=
    match q.question_type with
    | .multiple_choice =>
        (decide (selectedOption = some q.reference_answer), selectedOption.getD "")
    | .fill_in_the_blank =>
        (decide (jsTrim (jsToLowerCase textAnswer) = jsTrim (jsToLowerCase q.reference_answer)),
         textAnswer)
    | .essay => (false, textAnswer)
  { question_id := q.id.getD 0
    user_answer := result.2
    is_correct := result.1
    time_spent_seconds := timeSpent }

/-- JavaScript values produced by `JSON.parse`, for the read-side helpers of
`PracticeMode.tsx`. -/
inductive JsonValue where
  | null
  | bool (b : Bool)
  | num (q : ℚ)
  | str (s : String)
  | arr (l : List JsonValue)
  | obj (l : List (String × JsonValue))

/-- JavaScript falsiness on `JsonValue` (`null`, `false`, `0` and `""` are
falsy; arrays and objects are always truthy). -/
def jsFalsy : JsonValue → Bool
  | .null => true
  | .bool b => !b
  | .num q => decide (q = 0)
  | .str s => decide (s = "")
  | .arr _ => false
  | .obj _ => false

/-- `getOptions` from `src/components/PracticeMode.tsx`. `parse` is the
`JSON.parse` oracle, `none` standing for a thrown parse error, which the
`try/catch` of the source converts to `[]`; `!currentQuestion.options` is
falsy both for SQL null / absent (`Option.none`) and for the empty string;
`parsed || []` converts a falsy parse result to `[]`. -/
def getOptions (parse : String → Option JsonValue) (q : Question) : JsonValue :=
  match q.options with
  | none => .arr []
  | some s =>
    if s = "" then .arr []
    else
      match parse s with
      | none => .arr []
      | some v => if jsFalsy v then .arr [] else v

/-- `getAnalysis` from `src/components/PracticeMode.tsx`: parses
`detailed_analysis`, falling back to the one-element array holding the raw
string when `JSON.parse` throws, and to `[]` when it returns a falsy value. -/
def getAnalysis (parse : String → Option JsonValue) (q : Question) : JsonValue :=
  match parse q.detailed_analysis with
  | none => .arr [.str q.detailed_analysis]
  | some v => if jsFalsy v then .arr [] else v

/-- The module-level mutable state touched by `configureOpenAI` /
`getOpenAIConfig` in `src/lib/ai.ts`: the in-memory cache variable
`openAIConfig` and the `localStorage` entry under the key
`openai_config`. `JSON.stringify` followed by `JSON.parse` is the identity
on this flat record of strings, so the stored JSON string is embedded as the
configuration value itself. -/
structure SessionState where
  openAIConfig : Option OpenAIConfig := none
  storedConfig : Option OpenAIConfig := none
deriving DecidableEq, Repr

/-- `configureOpenAI` from `src/lib/ai.ts`: overwrites the in-memory cache
and persists the serialized configuration to `localStorage`. -/
def configureOpenAI (config : OpenAIConfig) (_s : SessionState) : SessionState :=
  { openAIConfig := some config, storedConfig := some config }

/-- `getOpenAIConfig` from `src/lib/ai.ts`: returns the cached value when
present, otherwise reads and caches the `localStorage` entry, otherwise
`null`. Returns the read value together with the updated state. -/
def getOpenAIConfig (s : SessionState) : Option OpenAIConfig × SessionState :=
  match s.openAIConfig with
  | some c => (some c, s)
  | none =>
    match s.storedConfig with
    | some c => (some c, { s with openAIConfig := some c })
    | none => (none, s)

/-- A fresh session: the module-level cache variable is reinitialized to
`null` while `localStorage` persists. -/
def freshSession (s : SessionState) : SessionState :=
  { openAIConfig := none, storedConfig := s.storedConfig }

/-- `BatchImportResult` from `src/lib/db.ts`. -/
structure BatchImportResult where
  success : Bool
  imported_count : Nat
  errors : List String
deriving DecidableEq, Repr

/-- A candidate question submitted to batch import, before validation: the
type tag is still an open string, options are raw label/content pairs. -/
structure Candidate where
  question_type : String
  stem : String
  options : Option (List (String × String)) := none
  reference_answer : String
  detailed_analysis : List String
  media_refs : List String := []
  knowledge_tags : List String := []
  difficulty : Option Int := none
deriving DecidableEq, Repr

/-- The per-candidate validation error taxonomy of the import layer. -/
inductive ValidationError where
  | InvalidType
  | EmptyStem
  | EmptyAnswer
  | InvalidOptions
  | AnswerNotInOptions
  | DifficultyOutOfRange
deriving DecidableEq, Repr

/-- A human-readable message for a validation error. -/
def ValidationError.message : ValidationError → String
  | .InvalidType => "invalid question type"
  | .EmptyStem => "empty stem"
  | .EmptyAnswer => "empty reference answer"
  | .InvalidOptions => "invalid options"
  | .AnswerNotInOptions => "reference answer not among option labels"
  | .DifficultyOutOfRange => "difficulty out of range"

/-- Whether an options value is acceptable for a multiple-choice candidate:
present, with at least two entries, each carrying a non-empty label and
content. -/
def validOptions : Option (List (String × String)) → Bool
  | none => false
  | some opts =>
      decide (2 ≤ opts.length) &&
      opts.all fun p => decide (jsTrim p.1 ≠ "" ∧ jsTrim p.2 ≠ "")

/-- Whether the reference answer matches one option label. -/
def answerInOptions (c : Candidate) : Bool :=
  (c.options.getD []).any fun p => decide (p.1 = c.reference_answer)

/-- Collection normalization of the validator: steps trimmed, empties
dropped. -/
def normalizeSeq (l : List String) : List String :=
  (l.map jsTrim).filter fun s => decide (s ≠ "")

/-- Tag normalization: trimmed, empties dropped, duplicates collapsed by
case-insensitive equality (first occurrence kept). -/
def normalizeTags (l : List String) : List String :=
  (normalizeSeq l).pwFilter fun a b => jsToLowerCase a ≠ jsToLowerCase b

/-- Modelled from the spec: the validator of §4.1
(`validate(candidate) -> Ok(Question) | Err(ValidationError)`), whose
implementation lives in the Rust backend (`src-tauri`, not under `src/`).
Rules applied in the order the spec lists, first failure winning; on success
the candidate is returned with its free-form sequences normalized. -/
def validate (c : Candidate) : Except ValidationError Candidate :=
  if ¬(c.question_type = "multiple_choice" ∨ c.question_type = "fill_in_the_blank" ∨
      c.question_type = "essay") then .error .InvalidType
  else if jsTrim c.stem = "" then .error .EmptyStem
  else if jsTrim c.reference_answer = "" then .error .EmptyAnswer
  else if c.question_type = "multiple_choice" ∧ validOptions c.options = false then
    .error .InvalidOptions
  else if c.question_type = "multiple_choice" ∧ answerInOptions c = false then
    .error .AnswerNotInOptions
  else if ¬(∀ d ∈ c.difficulty, 1 ≤ d ∧ d ≤ 5) then .error .DifficultyOutOfRange
  else .ok
    { c with
      detailed_analysis := normalizeSeq c.detailed_analysis
      media_refs := normalizeSeq c.media_refs
      knowledge_tags := normalizeTags c.knowledge_tags }

/-- The outcome of the single storage transaction committing the valid
subset of a batch. -/
inductive StorageOutcome where
  | committed
  | failed (msg : String)
deriving DecidableEq, Repr

/-- The subset of a batch that passes validation, in order. -/
def validCandidates (candidates : List Candidate) : List Candidate :=
  candidates.filterMap fun c => (validate c).toOption

/-- The per-item validation error messages of a batch, tagged with each
failing candidate's ordinal position. -/
def validationMessages (candidates : List Candidate) : List String :=
  candidates.enum.filterMap fun p =>
    match validate p.2 with
    | .error e => some ("candidate " ++ toString p.1 ++ ": " ++ e.message)
    | .ok _ => none

/-- Modelled from the spec: `batch_import_questions` (§4.4), whose
implementation lives in the Rust backend (`src-tauri`, not under `src/`;
`src/lib/db.ts` only forwards to it over the Tauri bridge). Each candidate
is independently validated; the valid subset is committed as one storage
transaction (`commit`, the storage boundary of §6, applied to the valid
subset); if that transaction fails the batch reports `success = false`,
`imported_count = 0` and the single storage error, and the store is left
unchanged; otherwise the valid subset is appended to the store and each
validation failure is reported as an ordinal-tagged message. Returns the
result together with the resulting store contents. -/
def batchImportQuestions (commit : List Candidate → StorageOutcome)
    (store : List Candidate) (candidates : List Candidate) :
    BatchImportResult × List Candidate :=
  match commit (validCandidates candidates) with
  | .failed msg => (⟨false, 0, [msg]⟩, store)
  | .committed =>
    (⟨true, (validCandidates candidates).length, validationMessages candidates⟩,
     store ++ validCandidates candidates)

/-! ## Helper lemmas -/

/-- The spec reading of the Verifier keep-predicate: stem length at least 10
(an empty stem has length 0, so the separate empty test of the source is
subsumed), non-empty reference answer, and, for multiple choice, options
present with at least 2 entries (absent options default to length 0). -/
def specKeep (q : GeneratedQuestion) : Bool :=
  decide (10 ≤ q.stem.length) && decide (q.reference_answer ≠ "") &&
    (decide (q.question_type ≠ QuestionType.multiple_choice) ||
     decide (2 ≤ (q.options.getD []).length))

theorem keepQuestion_iff (q : GeneratedQuestion) :
    keepQuestion q = true ↔
      10 ≤ q.stem.length ∧ q.reference_answer ≠ "" ∧
        (q.question_type = QuestionType.multiple_choice →
          ∃ opts, q.options = some opts ∧ 2 ≤ opts.length) := by
  unfold keepQuestion
  constructor
  · intro h
    by_cases h1 : q.stem = "" ∨ q.stem.length < 10
    · simp [h1] at h
    · by_cases h2 : q.reference_answer = ""
      · simp [h1, h2] at h
      · by_cases h3 : q.question_type = QuestionType.multiple_choice ∧
            (q.options = none ∨ (q.options.getD []).length < 2)
        · simp [h1, h2, h3] at h
        · push_neg at h1
          refine ⟨by omega, h2, ?_⟩
          intro hmc
          rcases hq : q.options with _ | opts
          · exact absurd ⟨hmc, Or.inl hq⟩ h3
          · refine ⟨opts, rfl, ?_⟩
            by_contra hlen
            exact h3 ⟨hmc, Or.inr (by rw [hq]; simp only [Option.getD_some]; omega)⟩
  · rintro ⟨hlen, hra, hmc⟩
    have h0 : ("" : String).length = 0 := rfl
    have h1 : ¬(q.stem = "" ∨ q.stem.length < 10) := by
      push_neg
      refine ⟨?_, by omega⟩
      intro he
      rw [he] at hlen
      omega
    have h3 : ¬(q.question_type = QuestionType.multiple_choice ∧
        (q.options = none ∨ (q.options.getD []).length < 2)) := by
      rintro ⟨hq, ho⟩
      obtain ⟨opts, hopts, hol⟩ := hmc hq
      rcases ho with ho | ho
      · rw [hopts] at ho
        exact Option.noConfusion ho
      · rw [hopts] at ho
        simp only [Option.getD_some] at ho
        omega
    simp [h1, hra, h3]

theorem specKeep_iff (q : GeneratedQuestion) :
    specKeep q = true ↔
      10 ≤ q.stem.length ∧ q.reference_answer ≠ "" ∧
        (q.question_type = QuestionType.multiple_choice →
          ∃ opts, q.options = some opts ∧ 2 ≤ opts.length) := by
  unfold specKeep
  simp only [Bool.and_eq_true, Bool.or_eq_true, decide_eq_true_eq]
  rcases hq : q.options with _ | opts
  · constructor
    · rintro ⟨⟨hl, hr⟩, hm⟩
      refine ⟨hl, hr, ?_⟩
      intro hmc
      rcases hm with hm | hm
      · exact absurd hmc hm
      · simp at hm
    · rintro ⟨hl, hr, hm⟩
      refine ⟨⟨hl, hr⟩, Or.inl ?_⟩
      intro hmc
      obtain ⟨opts, hopts, _⟩ := hm hmc
      exact Option.noConfusion hopts
  · constructor
    · rintro ⟨⟨hl, hr⟩, hm⟩
      refine ⟨hl, hr, ?_⟩
      intro hmc
      rcases hm with hm | hm
      · exact absurd hmc hm
      · simp only [Option.getD_some] at hm
        exact ⟨opts, rfl, hm⟩
    · rintro ⟨hl, hr, hm⟩
      refine ⟨⟨hl, hr⟩, ?_⟩
      by_cases hmc : q.question_type = QuestionType.multiple_choice
      · obtain ⟨opts2, hopts2, hlen2⟩ := hm hmc
        injection hopts2 with he
        subst he
        exact Or.inr (by simpa using hlen2)
      · exact Or.inl hmc

theorem keepQuestion_eq_specKeep (q : GeneratedQuestion) :
    keepQuestion q = specKeep q := by
  rw [Bool.eq_iff_iff, keepQuestion_iff, specKeep_iff]

theorem generateMockQuestions_ne_nil (text : String) :
    generateMockQuestions text ≠ [] := by
  unfold generateMockQuestions
  split_ifs <;> simp [sortingMockQuestions, physicsMockQuestions, defaultMockQuestions]

/-! ## Concrete fixtures used by counterexamples and witnesses -/

/-- A configuration carrying a non-empty API key. -/
def cfgWithKey : OpenAIConfig :=
  { apiKey := "sk-test" }

/-- A generated candidate whose stem is shorter than 10 characters, which
the Verifier stage drops. -/
def shortStemQuestion : GeneratedQuestion :=
  { question_type := .essay
    stem := "short"
    reference_answer := "an answer"
    detailed_analysis := ["a step"] }

/-- A persisted fill-in-the-blank question with reference answer `n`. -/
def fillBlankQuestion : Question :=
  { id := some 1
    question_type := .fill_in_the_blank
    stem := "The space complexity of MergeSort is $O($______$)$."
    reference_answer := "n"
    detailed_analysis := "[]" }

/-- A persisted essay question. -/
def essayQuestion : Question :=
  { id := some 2
    question_type := .essay
    stem := "Explain the significance of the equation in modern physics."
    reference_answer := "mass and energy are interchangeable"
    detailed_analysis := "[]" }

/-- A generated candidate carrying the non-integer difficulty `5/2`. -/
def halfDifficultyQuestion : GeneratedQuestion :=
  { question_type := .essay
    stem := "Explain the role of invariants in program verification."
    reference_answer := "They constrain the reachable states."
    detailed_analysis := ["a step"]
    difficulty := some (5 / 2) }

/-- A persisted question whose serialized fields are not valid JSON. -/
def unparsableQuestion : Question :=
  { id := some 3
    question_type := .essay
    stem := "a stem of sufficient length"
    options := some "not valid json"
    reference_answer := "an answer"
    detailed_analysis := "plain text analysis" }

/-- A `JSON.parse` oracle that throws on every input. -/
def failingParse : String → Option JsonValue :=
  fun _ => none

/-- A storage commit that fails with an I/O error on every batch. -/
def ioFailingCommit : List Candidate → StorageOutcome :=
  fun _ => .failed "storage transaction failed: disk I/O error"

/-- A well-formed import candidate. -/
def sampleCandidate : Candidate :=
  { question_type := "fill_in_the_blank"
    stem := "The capital of France is ______."
    reference_answer := "Paris"
    detailed_analysis := ["Basic geography."] }

/-! ## Claim theorems -/

/-- C1 (counterexample): with an API key configured, a remote stage that
succeeds with a single candidate whose stem is shorter than 10 characters,
and a non-empty input text, `generateQuestionsFromText` completes
successfully yet returns the empty list — the Verifier drops every
candidate. -/
theorem generate_pipeline_empty_on_success :
    ("Some source text" : String) ≠ "" ∧
    hasApiKey (some cfgWithKey) = true ∧
    generateQuestionsFromText (some cfgWithKey) (.ok [shortStemQuestion])
      "Some source text" = [] := by
  refine ⟨by decide, by decide, by decide⟩

/-- C1 (amended): for every non-empty input text, whenever the pipeline
takes the offline path — no API key configured, or the remote stage fails —
the result is the offline generator output and is non-empty; the offline
generator itself is total and never returns an empty list. (As amended: a
successful remote stage may still yield an empty result when the Verifier
drops every candidate.) -/
theorem generate_pipeline_fallback_nonempty (cfg : Option OpenAIConfig)
    (remote : Except RemoteError (List GeneratedQuestion)) (text : String)
    (_htext : text ≠ "")
    (hfb : hasApiKey cfg = false ∨ ∃ e, remote = .error e) :
    generateQuestionsFromText cfg remote text = generateMockQuestions text ∧
    generateQuestionsFromText cfg remote text ≠ [] := by
  have hmock := generateMockQuestions_ne_nil text
  unfold generateQuestionsFromText
  rcases hfb with h | ⟨e, he⟩
  · simp [h, hmock]
  · subst he
    by_cases hk : hasApiKey cfg = false
    · simp [hk, hmock]
    · simp [hk, hmock]

/-- C1 (witness): the amended theorem at a concrete input. -/
theorem generate_pipeline_fallback_nonempty_witness :
    generateQuestionsFromText none (.ok []) "Some source text" =
      generateMockQuestions "Some source text" ∧
    generateQuestionsFromText none (.ok []) "Some source text" ≠ [] :=
  generate_pipeline_fallback_nonempty none (.ok []) "Some source text"
    (by decide) (Or.inl rfl)

/-- C2: for every batch whose storage transaction fails, batch import
reports `success = false` and `imported_count = 0` with the single storage
error, and the store is unchanged — no candidate of the batch is
persisted. -/
theorem batch_import_storage_failure (commit : List Candidate → StorageOutcome)
    (store candidates : List Candidate) (msg : String)
    (hfail : commit (validCandidates candidates) = StorageOutcome.failed msg) :
    (batchImportQuestions commit store candidates).1.success = false ∧
    (batchImportQuestions commit store candidates).1.imported_count = 0 ∧
    (batchImportQuestions commit store candidates).1.errors = [msg] ∧
    (batchImportQuestions commit store candidates).2 = store := by
  unfold batchImportQuestions
  rw [hfail]
  exact ⟨rfl, rfl, rfl, rfl⟩

/-- C2 (witness): a concrete batch against a commit that fails with an I/O
error. -/
theorem batch_import_storage_failure_witness :
    (batchImportQuestions ioFailingCommit [] [sampleCandidate]).1.success = false ∧
    (batchImportQuestions ioFailingCommit [] [sampleCandidate]).1.imported_count = 0 ∧
    (batchImportQuestions ioFailingCommit [] [sampleCandidate]).1.errors =
      ["storage transaction failed: disk I/O error"] ∧
    (batchImportQuestions ioFailingCommit [] [sampleCandidate]).2 = [] :=
  batch_import_storage_failure ioFailingCommit [] [sampleCandidate]
    "storage transaction failed: disk I/O error" rfl

/-- C3: the Verifier returns exactly the subsequence, in original order, of
candidates with stem length at least 10, non-empty reference answer, and —
for multiple choice — an options list present with at least 2 entries;
everything else is dropped with no error produced. -/
theorem verifyQuestions_structural_filter (qs : List GeneratedQuestion) :
    (verifyQuestions qs).Sublist qs ∧
    verifyQuestions qs = qs.filter specKeep ∧
    ∀ q, q ∈ verifyQuestions qs ↔
      q ∈ qs ∧ 10 ≤ q.stem.length ∧ q.reference_answer ≠ "" ∧
        (q.question_type = QuestionType.multiple_choice →
          ∃ opts, q.options = some opts ∧ 2 ≤ opts.length) := by
  refine ⟨List.filter_sublist qs, ?_, ?_⟩
  · exact List.filter_congr fun q _ => keepQuestion_eq_specKeep q
  · intro q
    rw [verifyQuestions, List.mem_filter, keepQuestion_iff]

/-- C4: whenever an API key is configured and the remote stage raises any
error, the pipeline returns the deterministic offline generator output for
the input text instead of propagating the error. -/
theorem generate_remote_error_falls_back (cfg : OpenAIConfig)
    (e : RemoteError) (text : String) (hkey : cfg.apiKey ≠ "") :
    generateQuestionsFromText (some cfg) (.error e) text =
      generateMockQuestions text := by
  unfold generateQuestionsFromText
  have h : hasApiKey (some cfg) = true := by
    simp [hasApiKey, hkey]
  simp [h]

/-- C4 (witness): a concrete configured session whose remote call fails with
a network error. -/
theorem generate_remote_error_falls_back_witness :
    generateQuestionsFromText (some cfgWithKey)
      (.error (.network "connection refused")) "hello" =
      generateMockQuestions "hello" :=
  generate_remote_error_falls_back cfgWithKey (.network "connection refused")
    "hello" (by decide)

/-- C5 (counterexample): the text `physics sort` contains `physics`, yet the
offline generator returns the two sorting templates, not the physics
templates — the algorithm/sort keywords are checked first. -/
theorem mock_keyword_precedence_counterexample :
    jsIncludes (jsToLowerCase "physics sort") "physics" = true ∧
    generateQuestionsFromText none (.ok []) "physics sort" = sortingMockQuestions ∧
    sortingMockQuestions ≠ physicsMockQuestions := by
  refine ⟨by decide, by decide, by decide⟩

/-- C5 (amended): with no API key configured the pipeline consults the
remote outcome in no way and returns the offline generator catalog
selection, which is deterministic: the two sorting templates when the
lowercased text contains `algorithm` or `sort`; otherwise the two physics
templates when it contains `physics` or `energy`; otherwise the single
default template. -/
theorem offline_generation_deterministic_catalog (cfg : Option OpenAIConfig)
    (r1 r2 : Except RemoteError (List GeneratedQuestion)) (text : String)
    (hkey : hasApiKey cfg = false) :
    generateQuestionsFromText cfg r1 text = generateMockQuestions text ∧
    generateQuestionsFromText cfg r1 text = generateQuestionsFromText cfg r2 text ∧
    ((jsIncludes (jsToLowerCase text) "algorithm" ||
        jsIncludes (jsToLowerCase text) "sort") = true →
      generateMockQuestions text = sortingMockQuestions) ∧
    ((jsIncludes (jsToLowerCase text) "algorithm" ||
        jsIncludes (jsToLowerCase text) "sort") = false →
      (jsIncludes (jsToLowerCase text) "physics" ||
        jsIncludes (jsToLowerCase text) "energy") = true →
      generateMockQuestions text = physicsMockQuestions) ∧
    ((jsIncludes (jsToLowerCase text) "algorithm" ||
        jsIncludes (jsToLowerCase text) "sort") = false →
      (jsIncludes (jsToLowerCase text) "physics" ||
        jsIncludes (jsToLowerCase text) "energy") = false →
      generateMockQuestions text = defaultMockQuestions) ∧
    sortingMockQuestions.length = 2 ∧
    physicsMockQuestions.length = 2 ∧
    defaultMockQuestions.length = 1 := by
  refine ⟨by simp [generateQuestionsFromText, hkey],
    by simp [generateQuestionsFromText, hkey],
    fun h1 => by simp [generateMockQuestions, h1],
    fun h1 h2 => by simp [generateMockQuestions, h1, h2],
    fun h1 h2 => by simp [generateMockQuestions, h1, h2],
    rfl, rfl, rfl⟩

/-- C5 (witness): the amended theorem at a concrete keyworded input, for two
different remote outcomes. -/
theorem offline_generation_deterministic_catalog_witness :
    generateQuestionsFromText none (.ok []) "Sorting Algorithms 101" =
      generateMockQuestions "Sorting Algorithms 101" ∧
    generateQuestionsFromText none (.ok []) "Sorting Algorithms 101" =
      generateQuestionsFromText none (.error (.network "down"))
        "Sorting Algorithms 101" :=
  ⟨(offline_generation_deterministic_catalog none (.ok [])
      (.error (.network "down")) "Sorting Algorithms 101" rfl).1,
   (offline_generation_deterministic_catalog none (.ok [])
      (.error (.network "down")) "Sorting Algorithms 101" rfl).2.1⟩

/-- C6: for a fill-in-the-blank question the recorded attempt is correct
exactly when the submitted answer and the reference answer agree after
lowercasing and trimming both sides. -/
theorem fill_blank_correctness (q : Question) (sel : Option String)
    (ans : String) (t : Nat)
    (hq : q.question_type = QuestionType.fill_in_the_blank) :
    (checkAnswer q sel ans t).is_correct = true ↔
      jsTrim (jsToLowerCase ans) = jsTrim (jsToLowerCase q.reference_answer) := by
  simp [checkAnswer, hq]

/-- C6 (witness): reference answer `n` with user answer `" N "` is recorded
as correct. -/
theorem fill_blank_correctness_witness :
    (checkAnswer fillBlankQuestion none " N " 5).is_correct = true :=
  (fill_blank_correctness fillBlankQuestion none " N " 5 rfl).mpr (by decide)

/-- C7: every attempt recorded for an essay question has
`is_correct = false` and no `confidence_score`. -/
theorem essay_always_incorrect (q : Question) (sel : Option String)
    (ans : String) (t : Nat) (hq : q.question_type = QuestionType.essay) :
    (checkAnswer q sel ans t).is_correct = false ∧
    (checkAnswer q sel ans t).confidence_score = none := by
  simp [checkAnswer, hq]

/-- C7 (witness): a concrete essay attempt. -/
theorem essay_always_incorrect_witness :
    (checkAnswer essayQuestion none "my long essay answer" 30).is_correct = false ∧
    (checkAnswer essayQuestion none "my long essay answer" 30).confidence_score = none :=
  essay_always_incorrect essayQuestion none "my long essay answer" 30 rfl

theorem half_not_integral : ¬ ∃ n : ℤ, ((n : ℚ)) = (5 / 2 : ℚ) := by
  rintro ⟨n, hn⟩
  have h2 : (n : ℚ) * 2 = 5 := by rw [hn]; norm_num
  have h3 : ((n * 2 : ℤ) : ℚ) = ((5 : ℤ) : ℚ) := by push_cast; linarith
  have h4 : n * 2 = 5 := by exact_mod_cast h3
  omega

theorem half_den_ne_one : (5 / 2 : ℚ).den ≠ 1 := by
  intro h
  rw [Rat.den_eq_one_iff] at h
  exact half_not_integral ⟨(5 / 2 : ℚ).num, h⟩

/-- C8 (counterexample): the runtime question schema accepts the non-integer
difficulty `5/2` — `z.number().min(1).max(5)` does not require
integrality — while the JSON Schema handed to the remote model rejects it. -/
theorem difficulty_non_integer_accepted :
    halfDifficultyQuestion.difficulty = some (5 / 2 : ℚ) ∧
    ((5 / 2 : ℚ).den ≠ 1) ∧
    questionSchemaAccepts halfDifficultyQuestion = true ∧
    jsonSchemaDifficultyAccepted (some (5 / 2 : ℚ)) = false := by
  refine ⟨rfl, half_den_ne_one, ?_, ?_⟩
  · have : questionSchemaAccepts halfDifficultyQuestion =
        difficultyAccepted (some (5 / 2 : ℚ)) := rfl
    rw [this]
    simp only [difficultyAccepted, decide_eq_true_eq]
    norm_num
  · simp only [jsonSchemaDifficultyAccepted, decide_eq_false_iff_not]
    rintro ⟨hden, _⟩
    exact half_den_ne_one hden

/-- C8 (amended): the runtime question schema accepts a present difficulty
exactly when it is a number in `[1,5]` (integrality is not checked at
runtime) and always accepts an absent difficulty; the JSON Schema handed to
the remote model additionally requires the value to be an integer. -/
theorem difficulty_range_check (d : ℚ) (q : GeneratedQuestion) :
    difficultyAccepted none = true ∧
    (difficultyAccepted (some d) = true ↔ 1 ≤ d ∧ d ≤ 5) ∧
    (jsonSchemaDifficultyAccepted (some d) = true ↔ d.den = 1 ∧ 1 ≤ d ∧ d ≤ 5) ∧
    questionSchemaAccepts q = difficultyAccepted q.difficulty := by
  refine ⟨rfl, by simp [difficultyAccepted], by simp [jsonSchemaDifficultyAccepted], rfl⟩

/-- C9: the practice-mode read helpers are total: `getOptions` returns the
empty array when `options` is null/absent or when `JSON.parse` throws on it
(in the embedding a thrown parse is `parse s = none`), and `getAnalysis`
returns the one-element array holding the raw `detailed_analysis` string
when that field does not parse. -/
theorem practice_read_helpers_total (parse : String → Option JsonValue)
    (q : Question) (s : String) :
    ((q.options = none ∨ (q.options = some s ∧ parse s = none)) →
      getOptions parse q = JsonValue.arr []) ∧
    (parse q.detailed_analysis = none →
      getAnalysis parse q = JsonValue.arr [JsonValue.str q.detailed_analysis]) := by
  constructor
  · rintro (h | ⟨h, hp⟩)
    · simp [getOptions, h]
    · by_cases hs : s = ""
      · simp [getOptions, h, hs]
      · simp [getOptions, h, hs, hp]
  · intro h
    simp [getAnalysis, h]

/-- C9 (witness): a concrete record whose serialized fields fail to parse. -/
theorem practice_read_helpers_total_witness :
    getOptions failingParse unparsableQuestion = JsonValue.arr [] ∧
    getAnalysis failingParse unparsableQuestion =
      JsonValue.arr [JsonValue.str "plain text analysis"] :=
  ⟨(practice_read_helpers_total failingParse unparsableQuestion "not valid json").1
      (Or.inr ⟨rfl, rfl⟩),
   (practice_read_helpers_total failingParse unparsableQuestion "not valid json").2 rfl⟩

/-- C10: configuration round-trips: after `configureOpenAI c`, reading the
configuration returns `c`; the value is cached in memory and persisted to
`localStorage`; and a fresh session (empty in-memory cache, persistent
storage) whose first call is `getOpenAIConfig` also returns `c`. -/
theorem openai_config_roundtrip (c : OpenAIConfig) (s : SessionState) :
    (getOpenAIConfig (configureOpenAI c s)).1 = some c ∧
    (configureOpenAI c s).openAIConfig = some c ∧
    (configureOpenAI c s).storedConfig = some c ∧
    (getOpenAIConfig (freshSession (configureOpenAI c s))).1 = some c :=
  ⟨rfl, rfl, rfl, rfl⟩
